import Mathlib

/-!
Shallow embedding of the turn-level safety supervision loop of the
`oai-realtime` clinical-trial recruiter app.

Sources embedded here:
- `src/lib/recruiter-tools.ts` (zod schemas, `HIGH_RISK_VIOLATIONS`,
  `guardrail_state`, `record_eligibility`, `moderation_check`,
  `lookup_info` / `buildStudySections`);
- `src/app/page.tsx` (supervisor state, `resetSession`,
  `handleGuardrailViolation`, the moderation-log append wiring);
- `src/app/api/moderation/route.ts` (the server-side moderation proxy).

Machine-level details abstracted: network calls become explicit outcome
values, `Date.now()` becomes a `Nat` parameter, and React state updates
become explicit state passing over a `SupervisorState` record.
-/

namespace OaiRealtime

/-! ### JavaScript string primitives

Modelled over `List Char` so that every definition reduces inside the
kernel. `jsTrim` models `String.prototype.trim` (whitespace per
`Char.isWhitespace`), `jsToLower` models `toLowerCase` (ASCII letters),
and `jsSlice0` models `s.slice(0, n)` (counting characters rather than
UTF-16 code units; the embedded strings are ASCII). -/

def dropLeadingWs : List Char → List Char
  | [] => []
  | c :: cs => if c.isWhitespace then dropLeadingWs cs else c :: cs

def jsTrim (s : String) : String :=
  String.mk (((dropLeadingWs s.toList).reverse |> dropLeadingWs).reverse)

def jsToLower (s : String) : String :=
  String.mk (s.toList.map Char.toLower)

def jsSlice0 (s : String) (n : Nat) : String :=
  String.mk (s.toList.take n)

/-! ### Enumerations of the guardrail-state zod schema
(`src/lib/recruiter-tools.ts`, lines 12-60). -/

inductive ConvState where
  | CONSENT_PENDING
  | CONSENT_DENIED
  | AGE_GATE
  | SCREENING
  | TRIAL_INFO
  | SCHEDULE
  | HUMAN_HANDOFF
  | END
deriving DecidableEq, Repr

inductive GuardAction where
  | ASK
  | ANSWER
  | REFUSE
  | ESCALATE_CRISIS
  | CONFIRM
  | SUMMARIZE
  | GOODBYE
deriving DecidableEq, Repr

inductive PiiField where
  | NAME
  | EMAIL
  | PHONE
  | ZIP
  | CITY
  | STATE
  | AGE
  | DOB_MONTH_YEAR
deriving DecidableEq, Repr

inductive Violation where
  | ADVICE_MEDICAL
  | COLLECT_EXCESS_PII
  | MINOR_USER
  | EMERGENCY_SIGNAL
  | CLAIM_EFFICACY
  | NO_CONSENT
  | OUT_OF_SCOPE
deriving DecidableEq, Repr

/-- The string literal of each violation tag as it appears in the zod enum. -/
def Violation.tag : Violation → String
  | .ADVICE_MEDICAL => "ADVICE_MEDICAL"
  | .COLLECT_EXCESS_PII => "COLLECT_EXCESS_PII"
  | .MINOR_USER => "MINOR_USER"
  | .EMERGENCY_SIGNAL => "EMERGENCY_SIGNAL"
  | .CLAIM_EFFICACY => "CLAIM_EFFICACY"
  | .NO_CONSENT => "NO_CONSENT"
  | .OUT_OF_SCOPE => "OUT_OF_SCOPE"

def convStateOfString : String → Option ConvState
  | "CONSENT_PENDING" => some .CONSENT_PENDING
  | "CONSENT_DENIED" => some .CONSENT_DENIED
  | "AGE_GATE" => some .AGE_GATE
  | "SCREENING" => some .SCREENING
  | "TRIAL_INFO" => some .TRIAL_INFO
  | "SCHEDULE" => some .SCHEDULE
  | "HUMAN_HANDOFF" => some .HUMAN_HANDOFF
  | "END" => some .END
  | _ => none

def guardActionOfString : String → Option GuardAction
  | "ASK" => some .ASK
  | "ANSWER" => some .ANSWER
  | "REFUSE" => some .REFUSE
  | "ESCALATE_CRISIS" => some .ESCALATE_CRISIS
  | "CONFIRM" => some .CONFIRM
  | "SUMMARIZE" => some .SUMMARIZE
  | "GOODBYE" => some .GOODBYE
  | _ => none

def piiFieldOfString : String → Option PiiField
  | "NAME" => some .NAME
  | "EMAIL" => some .EMAIL
  | "PHONE" => some .PHONE
  | "ZIP" => some .ZIP
  | "CITY" => some .CITY
  | "STATE" => some .STATE
  | "AGE" => some .AGE
  | "DOB_MONTH_YEAR" => some .DOB_MONTH_YEAR
  | _ => none

def violationOfString : String → Option Violation
  | "ADVICE_MEDICAL" => some .ADVICE_MEDICAL
  | "COLLECT_EXCESS_PII" => some .COLLECT_EXCESS_PII
  | "MINOR_USER" => some .MINOR_USER
  | "EMERGENCY_SIGNAL" => some .EMERGENCY_SIGNAL
  | "CLAIM_EFFICACY" => some .CLAIM_EFFICACY
  | "NO_CONSENT" => some .NO_CONSENT
  | "OUT_OF_SCOPE" => some .OUT_OF_SCOPE
  | _ => none

/-- A successfully validated guardrail declaration
(`GuardrailStateUpdate = z.infer of guardrailStateSchema`). -/
structure GuardrailStateUpdate where
  state : ConvState
  action : GuardAction
  pii_requested : List PiiField
  violations : List Violation
  risk_notes : Option String
deriving DecidableEq, Repr

/-- A raw tool payload before schema validation: enum positions hold
arbitrary strings, the defaulted array fields and `risk_notes` may be
absent. -/
structure RawGuardrailPayload where
  state : String
  action : String
  pii_requested : Option (List String)
  violations : Option (List String)
  risk_notes : Option String
deriving DecidableEq, Repr

/-- `guardrailStateSchema.safeParse`: every enum position must hold one of
the enumerated literals; `pii_requested` and `violations` default to `[]`
when absent (zod `.default([])`); `risk_notes` is optional. -/
def guardrailSafeParse (raw : RawGuardrailPayload) : Option GuardrailStateUpdate :=
  match convStateOfString raw.state, guardActionOfString raw.action with
  | some st, some ac =>
    match (raw.pii_requested.getD []).mapM piiFieldOfString,
          (raw.violations.getD []).mapM violationOfString with
    | some pii, some vios =>
      some { state := st, action := ac, pii_requested := pii,
             violations := vios, risk_notes := raw.risk_notes }
    | _, _ => none
  | _, _ => none

/-! ### Severity classification (`HIGH_RISK_VIOLATIONS`, lines 64-68). -/

def HIGH_RISK_VIOLATIONS : List Violation :=
  [.EMERGENCY_SIGNAL, .MINOR_USER, .NO_CONSENT]

/-- `payload.violations.some((violation) => HIGH_RISK_VIOLATIONS.has(violation))`,
the condition guarding the `onGuardrailViolation` callback. -/
def classifyHighRisk (payload : GuardrailStateUpdate) : Bool :=
  payload.violations.any (fun violation => HIGH_RISK_VIOLATIONS.contains violation)

/-! ### The guardrail_state tool (`recruiter-tools.ts`, lines 339-372).

`execute` re-parses the raw payload; on failure it returns the declined
acknowledgement without invoking any callback; on success it normalizes
the defaulted fields (identity in the typed model), calls
`onGuardrailUpdate`, and calls `onGuardrailViolation` exactly when a
high-risk violation is present. The callback invocations are recorded as
lists so the supervisor wiring can replay them. -/

structure GuardrailToolResult where
  acknowledged : Bool
  error : Option String
deriving DecidableEq, Repr

structure GuardrailExecEffects where
  result : GuardrailToolResult
  updateCalls : List GuardrailStateUpdate
  violationCalls : List GuardrailStateUpdate
deriving DecidableEq, Repr

/-- The tool body after a successful `safeParse`. -/
def guardrailExecuteBody (payload : GuardrailStateUpdate) : GuardrailExecEffects :=
  { result := { acknowledged := true, error := none },
    updateCalls := [payload],
    violationCalls := if classifyHighRisk payload then [payload] else [] }

def guardrailExecute (raw : RawGuardrailPayload) : GuardrailExecEffects :=
  match guardrailSafeParse raw with
  | none =>
    { result := { acknowledged := false, error := some "invalid_guardrail_state_payload" },
      updateCalls := [], violationCalls := [] }
  | some payload => guardrailExecuteBody payload

/-! ### ModerationRecord and EligibilitySummary (`recruiter-tools.ts`). -/

/-- Opaque category map returned by the classifier; only its presence or
absence matters to the embedded logic. -/
abbrev Categories := List (String × Bool)

/-- `ModerationRecord` (lines 317-324): optional fields become `Option`;
an absent field is `none`. `phase` is kept as the literal string so that
records match what the callbacks receive. -/
structure ModerationRecord where
  phase : String
  text : String
  flagged : Option Bool
  categories : Option Categories
  error : Option String
  timestamp : Nat
deriving DecidableEq, Repr

inductive Eligibility where
  | eligible
  | ineligible
  | review
deriving DecidableEq, Repr

structure EligibilitySummary where
  eligibility : Eligibility
  reasons : List String
deriving DecidableEq, Repr

/-! ### The record_eligibility tool (`recruiter-tools.ts`, lines 374-396).

The zod schema admits `eligibility` in the three-value enum and a
`reasons` array with at least one element; `execute` trims each reason,
filters the empty ones out (`filter(Boolean)`), and substitutes the
placeholder list when filtering left nothing. The returned pair is the
summary passed to `setEligibilitySummary` and the `recorded` flag of the
tool's return value. -/

def recordEligibilityExecute (eligibility : Eligibility) (reasons : List String) :
    EligibilitySummary × Bool :=
  let cleanedReasons := (reasons.map jsTrim).filter (fun reason => !reason.isEmpty)
  ({ eligibility := eligibility,
     reasons := if cleanedReasons.length > 0 then cleanedReasons
                else ["No reasons provided."] },
   true)

/-! ### The moderation_check tool (`recruiter-tools.ts`, lines 398-461).

The `fetch` to `/api/moderation` is abstracted into an explicit outcome:
either the call (or `response.json()`) throws, or a response arrives that
is not ok and carries an optional `error` code, or an ok response arrives
whose `result.results` is an array of entries (or is missing/not an
array, modelled as `none`). `Date.now()` is the `now` parameter. -/

structure ModEntry where
  flagged : Bool
  categories : Option Categories
deriving DecidableEq, Repr

inductive FetchOutcome where
  | unreachable
  | httpError (errorCode : Option String)
  | ok (results : Option (List ModEntry))
deriving DecidableEq, Repr

structure ModerationToolResult where
  moderated : Bool
  flagged : Option Bool
  categories : Option Categories
  error : Option String
deriving DecidableEq, Repr

structure ModerationExec where
  result : ModerationToolResult
  records : List ModerationRecord
deriving DecidableEq, Repr

inductive Phase where
  | user_input
  | assistant_plan
deriving DecidableEq, Repr

def Phase.tag : Phase → String
  | .user_input => "user_input"
  | .assistant_plan => "assistant_plan"

def moderationExecute (text : String) (phase : Phase) (outcome : FetchOutcome)
    (now : Nat) : ModerationExec :=
  let sent := jsSlice0 text 8000
  match outcome with
  | .unreachable =>
    { result := { moderated := false, flagged := none, categories := none,
                  error := some "moderation_unreachable" },
      records := [{ phase := phase.tag, text := sent, flagged := none,
                    categories := none, error := some "moderation_unreachable",
                    timestamp := now }] }
  | .httpError errorCode =>
    let code := errorCode.getD "moderation_failed"
    { result := { moderated := false, flagged := none, categories := none,
                  error := some code },
      records := [{ phase := phase.tag, text := sent, flagged := none,
                    categories := none, error := some code, timestamp := now }] }
  | .ok results =>
    let moderationEntry := results.bind List.head?
    let flagged := (moderationEntry.map ModEntry.flagged).getD false
    let categories := moderationEntry.bind ModEntry.categories
    { result := { moderated := true, flagged := some flagged,
                  categories := categories, error := none },
      records := [{ phase := phase.tag, text := sent, flagged := some flagged,
                    categories := categories, error := none, timestamp := now }] }

/-! ### The lookup_info section matching (`recruiter-tools.ts`, lines 214-315).

Section contents are formatted from the static `study_details.json`
record and are irrelevant to which sections are selected, so only the
`name`, `title` and `keywords` of each section are embedded; the matching
logic (`question.toLowerCase()`, JavaScript `String.includes` per
keyword, default to overview and status) is reproduced exactly. -/

structure StudySection where
  name : String
  title : String
  keywords : List String
deriving DecidableEq, Repr

/-- Character-list prefix test, mirroring the start of a JavaScript
`String.includes` scan. -/
def charsPrefix : List Char → List Char → Bool
  | [], _ => true
  | _ :: _, [] => false
  | c :: cs, d :: ds => c == d && charsPrefix cs ds

/-- Substring occurrence test on character lists. -/
def charsContain (pat : List Char) : List Char → Bool
  | [] => charsPrefix pat []
  | d :: ds => charsPrefix pat (d :: ds) || charsContain pat ds

/-- JavaScript `s.includes(pat)`. -/
def jsIncludes (s pat : String) : Bool :=
  charsContain pat.toList s.toList

def overviewSection : StudySection :=
  { name := "overview", title := "Overview",
    keywords := ["overview", "study", "trial", "what", "summary", "title"] }

def statusSection : StudySection :=
  { name := "status", title := "Status & Timeline",
    keywords := ["status", "timeline", "start", "completion", "recruit", "date"] }

def eligibilitySection : StudySection :=
  { name := "eligibility", title := "Eligibility",
    keywords := ["eligibility", "inclusion", "exclusion", "criteria"] }

def interventionSection : StudySection :=
  { name := "intervention", title := "Intervention",
    keywords := ["intervention", "treatment", "arm"] }

def outcomesSection : StudySection :=
  { name := "outcomes", title := "Outcomes",
    keywords := ["outcome", "measure", "endpoint"] }

def contactsSection : StudySection :=
  { name := "contacts", title := "Contacts",
    keywords := ["contact", "phone", "email", "investigator"] }

def locationsSection : StudySection :=
  { name := "locations", title := "Locations",
    keywords := ["location", "site", "where"] }

def studySections : List StudySection :=
  [overviewSection, statusSection, eligibilitySection, interventionSection,
   outcomesSection, contactsSection, locationsSection]

def sectionMatches (normalized : String) (sec : StudySection) : Bool :=
  sec.keywords.any (fun keyword => jsIncludes normalized keyword)

def buildStudySections (question : String) : List StudySection :=
  let normalized := jsToLower question
  let matched := studySections.filter (sectionMatches normalized)
  if matched.length > 0 then matched
  else studySections.filter (fun sec => ["overview", "status"].contains sec.name)

/-! ### Session Supervisor state (`src/app/page.tsx`).

The React state cells and refs relevant to the claims become fields of a
record. The audio-node refs cleared by `cleanupAudio` are represented by
the media-stream ref; `sessionRef`/`mediaStreamRef` are `true` when the
ref currently holds an object. -/

inductive SessionStatus where
  | idle
  | connecting
  | connected
  | error
deriving DecidableEq, Repr

structure SupervisorState where
  status : SessionStatus
  errorMessage : Option String
  history : List String
  eligibilitySummary : Option EligibilitySummary
  guardrailState : Option GuardrailStateUpdate
  moderationLog : List ModerationRecord
  sessionRef : Bool
  mediaStreamRef : Bool
deriving DecidableEq, Repr

/-- `cleanupAudio` (lines 134-155): disconnects the audio nodes, stops and
clears the media stream, detaches the playback element. Only the
media-stream ref is tracked here. -/
def cleanupAudio (s : SupervisorState) : SupervisorState :=
  { s with mediaStreamRef := false }

/-- `resetSession` (lines 157-174): runs listener cleanups, `cleanupAudio`,
closes and clears the session, and clears history, eligibility summary,
guardrail state and moderation log. It does not touch `status` or the
error message. -/
def resetSession (s : SupervisorState) : SupervisorState :=
  let s1 := cleanupAudio s
  { s1 with sessionRef := false, history := [], eligibilitySummary := none,
            guardrailState := none, moderationLog := [] }

/-- `handleGuardrailViolation` (lines 176-191): builds the user-visible
message (`risk_notes?.trim() ?? backtick-template`), then tears the
session down via `resetSession` and only afterwards re-installs the
violating payload and surfaces the error status and message. -/
def handleGuardrailViolation (s : SupervisorState) (payload : GuardrailStateUpdate) :
    SupervisorState :=
  let violationSummary :=
    if payload.violations.isEmpty then "guardrail triggered"
    else String.intercalate ", " (payload.violations.map Violation.tag)
  let message :=
    match payload.risk_notes with
    | some notes => jsTrim notes
    | none => "Guardrail triggered: " ++ violationSummary
  let s1 := resetSession s
  { s1 with guardrailState := some payload, status := .error,
            errorMessage := some message }

/-- The `onModerationResult` wiring (lines 199-203):
`[...previous, record].slice(-10)`. -/
def appendModerationRecord (log : List ModerationRecord) (record : ModerationRecord) :
    List ModerationRecord :=
  let next := log ++ [record]
  next.drop (next.length - 10)

/-- Delivery of one `guardrail_state` tool call to the supervisor: the
tool executes, each `onGuardrailUpdate` call sets the tracked guardrail
state, each `onGuardrailViolation` call runs `handleGuardrailViolation`
(wiring at lines 193-206). -/
def applyGuardrailTool (s : SupervisorState) (raw : RawGuardrailPayload) :
    SupervisorState × GuardrailToolResult :=
  let effects := guardrailExecute raw
  let s1 := effects.updateCalls.foldl
    (fun t payload => { t with guardrailState := some payload }) s
  let s2 := effects.violationCalls.foldl handleGuardrailViolation s1
  (s2, effects.result)

/-! ### The moderation proxy route (`src/app/api/moderation/route.ts`).

`request.json()` either throws (body `none`) or yields an object whose
`text`/`phase` fields may be absent, strings, or non-string values. The
upstream classifier call is abstracted into an outcome value. The
`forwardedInput` field records the `input` string sent to the classifier
(`text.slice(0, 8000)`), `none` when the classifier was never called. -/

inductive JsonField where
  | missing
  | strVal (s : String)
  | nonString
deriving DecidableEq, Repr

structure ModerationRequestBody where
  text : JsonField
  phase : JsonField
deriving DecidableEq, Repr

inductive ClassifierOutcome where
  | unreachable
  | respFail (status : Nat) (details : String)
  | respOk (data : String)
deriving DecidableEq, Repr

structure RoutePostOutcome where
  status : Nat
  errorField : Option String
  phaseField : Option String
  resultField : Option String
  detailsField : Option String
  forwardedInput : Option String
deriving DecidableEq, Repr

/-- `typeof body.text === "string" ? body.text : ""` -/
def routeText (body : ModerationRequestBody) : String :=
  match body.text with
  | .strVal s => s
  | _ => ""

/-- `typeof body.phase === "string" ? body.phase : "unknown"` -/
def routePhase (body : ModerationRequestBody) : String :=
  match body.phase with
  | .strVal s => s
  | _ => "unknown"

def moderationRoutePost (apiKey : Option String) (body : Option ModerationRequestBody)
    (classifier : ClassifierOutcome) : RoutePostOutcome :=
  match apiKey with
  | none =>
    { status := 500, errorField := some "missing_openai_api_key",
      phaseField := none, resultField := none, detailsField := none,
      forwardedInput := none }
  | some _ =>
    match body with
    | none =>
      { status := 400, errorField := some "invalid_json", phaseField := none,
        resultField := none, detailsField := none, forwardedInput := none }
    | some parsedBody =>
      let text := routeText parsedBody
      let phase := routePhase parsedBody
      if (jsTrim text).isEmpty then
        { status := 400, errorField := some "missing_text", phaseField := none,
          resultField := none, detailsField := none, forwardedInput := none }
      else
        let sent := jsSlice0 text 8000
        match classifier with
        | .unreachable =>
          { status := 500, errorField := some "moderation_unreachable",
            phaseField := none, resultField := none, detailsField := none,
            forwardedInput := some sent }
        | .respFail upstreamStatus details =>
          { status := upstreamStatus, errorField := some "moderation_failed",
            phaseField := none, resultField := none, detailsField := some details,
            forwardedInput := some sent }
        | .respOk data =>
          { status := 200, errorField := none, phaseField := some phase,
            resultField := some data, detailsField := none,
            forwardedInput := some sent }

/-! ### Concrete inputs used by witnesses and counterexamples. -/

/-- A connected session with some accumulated observability state. -/
def connectedExample : SupervisorState :=
  { status := .connected, errorMessage := none, history := ["greeting"],
    eligibilitySummary := some { eligibility := .review, reasons := ["pending"] },
    guardrailState := none,
    moderationLog := [{ phase := "user_input", text := "hi", flagged := some false,
                        categories := none, error := none, timestamp := 5 }],
    sessionRef := true, mediaStreamRef := true }

/-- A raw payload whose `state` is not one of the enumerated literals. -/
def invalidRawExample : RawGuardrailPayload :=
  { state := "SCREENINGG", action := "ASK", pii_requested := none,
    violations := none, risk_notes := none }

/-- A schema-valid raw payload carrying a high-severity violation and no
risk notes. -/
def highRawExample : RawGuardrailPayload :=
  { state := "SCREENING", action := "ESCALATE_CRISIS", pii_requested := none,
    violations := some ["EMERGENCY_SIGNAL"], risk_notes := none }

/-- The parse of `highRawExample`. -/
def highPayloadExample : GuardrailStateUpdate :=
  { state := .SCREENING, action := .ESCALATE_CRISIS, pii_requested := [],
    violations := [.EMERGENCY_SIGNAL], risk_notes := none }

/-- A schema-valid raw payload carrying a high-severity violation and
risk notes with surrounding whitespace. -/
def trimRawExample : RawGuardrailPayload :=
  { state := "SCREENING", action := "REFUSE", pii_requested := none,
    violations := some ["EMERGENCY_SIGNAL"],
    risk_notes := some " escalate to clinician " }

/-- The parse of `trimRawExample`. -/
def trimPayloadExample : GuardrailStateUpdate :=
  { state := .SCREENING, action := .REFUSE, pii_requested := [],
    violations := [.EMERGENCY_SIGNAL],
    risk_notes := some " escalate to clinician " }

/-! ### Theorems -/

/-- Claim C2: for every valid guardrail payload, high-severity
classification holds precisely when the violations contain one of
EMERGENCY_SIGNAL, MINOR_USER, NO_CONSENT; the escalation callback fires
precisely when the classification holds; the singleton OUT_OF_SCOPE set
classifies false and fires no callback, while MINOR_USER classifies
true. -/
theorem classifyHighRisk_iff_and_callback (payload : GuardrailStateUpdate) :
    (classifyHighRisk payload = true ↔
      ∃ v ∈ payload.violations,
        v = Violation.EMERGENCY_SIGNAL ∨ v = Violation.MINOR_USER ∨
          v = Violation.NO_CONSENT) ∧
    ((guardrailExecuteBody payload).violationCalls ≠ [] ↔
      classifyHighRisk payload = true) ∧
    classifyHighRisk { state := .SCREENING, action := .ANSWER, pii_requested := [],
                       violations := [.OUT_OF_SCOPE], risk_notes := none } = false ∧
    (guardrailExecuteBody { state := .SCREENING, action := .ANSWER, pii_requested := [],
                            violations := [.OUT_OF_SCOPE], risk_notes := none }).violationCalls
      = [] ∧
    classifyHighRisk { state := .SCREENING, action := .ANSWER, pii_requested := [],
                       violations := [.MINOR_USER], risk_notes := none } = true := by
  refine ⟨?_, ?_, by decide, by decide, by decide⟩
  · constructor
    · intro h
      obtain ⟨v, hv, hp⟩ := List.any_eq_true.mp h
      exact ⟨v, hv, by revert hp; cases v <;> decide⟩
    · rintro ⟨v, hv, hd⟩
      refine List.any_eq_true.mpr ⟨v, hv, ?_⟩
      rcases hd with rfl | rfl | rfl <;> decide
  · by_cases h : classifyHighRisk payload = true <;>
      simp [guardrailExecuteBody, h]

/-- Claim C3: every payload failing the guardrail-state schema makes
`guardrail_state` return the declined acknowledgement with error
`invalid_guardrail_state_payload`, with no side effect: the supervisor
state — tracked guardrail state included — is unchanged and the session
is not terminated. -/
theorem guardrail_schema_failure_no_effect (prior : SupervisorState)
    (raw : RawGuardrailPayload) (h : guardrailSafeParse raw = none) :
    applyGuardrailTool prior raw =
      (prior, { acknowledged := false,
                error := some "invalid_guardrail_state_payload" }) := by
  simp [applyGuardrailTool, guardrailExecute, h]

/-- Witness for C3 at a concrete misspelled `state` literal and a
connected prior state. -/
theorem guardrail_schema_failure_no_effect_witness :
    guardrailSafeParse invalidRawExample = none ∧
    applyGuardrailTool connectedExample invalidRawExample =
      (connectedExample, { acknowledged := false,
                           error := some "invalid_guardrail_state_payload" }) :=
  ⟨by decide,
   guardrail_schema_failure_no_effect connectedExample invalidRawExample (by decide)⟩

/-- Claim C4: every `moderation_check` invocation appends exactly one
ModerationRecord, and the transport-failure case returns
`{moderated := false, error := "moderation_unreachable"}` while the
single record carries the error and no flagged verdict. -/
theorem moderation_exec_one_record (text : String) (phase : Phase)
    (outcome : FetchOutcome) (now : Nat) :
    (moderationExecute text phase outcome now).records.length = 1 ∧
    moderationExecute text phase .unreachable now =
      { result := { moderated := false, flagged := none, categories := none,
                    error := some "moderation_unreachable" },
        records := [{ phase := phase.tag, text := jsSlice0 text 8000, flagged := none,
                      categories := none, error := some "moderation_unreachable",
                      timestamp := now }] } := by
  refine ⟨?_, rfl⟩
  cases outcome <;> rfl

lemma appendModerationRecord_length_le (log : List ModerationRecord)
    (record : ModerationRecord) : (appendModerationRecord log record).length ≤ 10 := by
  simp [appendModerationRecord]
  omega

lemma foldl_appendModerationRecord_le (runs : List ModerationRecord) :
    ∀ init : List ModerationRecord, init.length ≤ 10 →
      (runs.foldl appendModerationRecord init).length ≤ 10 := by
  induction runs with
  | nil => intro init h; simpa using h
  | cons r rs ih =>
    intro init _
    exact ih _ (appendModerationRecord_length_le init r)

/-- Claim C5: the moderation log never exceeds 10 entries over any
sequence of appends; below the bound an append just adds the record at
the end, at the bound the single oldest entry is evicted, and the
retained log is always a contiguous suffix of the old log plus the new
record, so existing records are never mutated. -/
theorem moderation_log_bounded (runs : List ModerationRecord)
    (log : List ModerationRecord) (record : ModerationRecord) :
    (runs.foldl appendModerationRecord []).length ≤ 10 ∧
    (appendModerationRecord log record).length ≤ 10 ∧
    (log.length ≤ 9 → appendModerationRecord log record = log ++ [record]) ∧
    (log.length = 10 → appendModerationRecord log record = log.tail ++ [record]) ∧
    List.IsSuffix (appendModerationRecord log record) (log ++ [record]) := by
  refine ⟨foldl_appendModerationRecord_le runs [] (by simp),
          appendModerationRecord_length_le log record, ?_, ?_, ?_⟩
  · intro h
    have hz : (log ++ [record]).length - 10 = 0 := by simp; omega
    simp only [appendModerationRecord]
    rw [hz, List.drop_zero]
  · intro h
    have hone : (log ++ [record]).length - 10 = 1 := by simp [h]
    simp only [appendModerationRecord]
    rw [hone, List.drop_append_of_le_length (by omega), List.drop_one]
  · exact List.drop_suffix _ _

/-- A sample moderation record. -/
def modRecordExample : ModerationRecord :=
  { phase := "assistant_plan", text := "plan", flagged := some false,
    categories := none, error := none, timestamp := 7 }

/-- Witness for C5: appending to an empty log keeps the record, appending
to a full 10-entry log evicts the oldest entry. -/
theorem moderation_log_bounded_witness :
    ([] : List ModerationRecord).length ≤ 9 ∧
    (List.replicate 10 modRecordExample).length = 10 ∧
    appendModerationRecord [] modRecordExample = [] ++ [modRecordExample] ∧
    appendModerationRecord (List.replicate 10 modRecordExample) modRecordExample =
      (List.replicate 10 modRecordExample).tail ++ [modRecordExample] :=
  ⟨by decide, by simp,
   (moderation_log_bounded [] [] modRecordExample).2.2.1 (by decide),
   (moderation_log_bounded [] (List.replicate 10 modRecordExample)
      modRecordExample).2.2.2.1 (by simp)⟩

/-- Claim C6: `record_eligibility` with a valid eligibility and non-empty
reasons stores the trimmed reasons with empty strings filtered out,
substitutes the placeholder list when filtering removes everything, and
returns `recorded := true`; in particular the spec's two test vectors
hold. -/
theorem record_eligibility_reasons (eligibility : Eligibility)
    (reasons : List String) (hne : reasons ≠ []) :
    (recordEligibilityExecute eligibility reasons).2 = true ∧
    (recordEligibilityExecute eligibility reasons).1.eligibility = eligibility ∧
    (recordEligibilityExecute eligibility reasons).1.reasons =
      (if (reasons.map jsTrim).filter (fun reason => !reason.isEmpty) = []
       then ["No reasons provided."]
       else (reasons.map jsTrim).filter (fun reason => !reason.isEmpty)) ∧
    (recordEligibilityExecute .eligible ["  ", ""]).1.reasons =
      ["No reasons provided."] ∧
    (recordEligibilityExecute .review [" low HIT-6 score "]).1.reasons =
      ["low HIT-6 score"] := by
  refine ⟨rfl, rfl, ?_, by decide, by decide⟩
  simp only [recordEligibilityExecute]
  by_cases h : (reasons.map jsTrim).filter (fun reason => !reason.isEmpty) = []
  · simp [h]
  · have hpos : 0 < ((reasons.map jsTrim).filter
        (fun reason => !reason.isEmpty)).length := List.length_pos.mpr h
    simp [h, hpos]

/-- Witness for C6 at the spec's whitespace-only test vector. -/
theorem record_eligibility_reasons_witness :
    (["  ", ""] : List String) ≠ [] ∧
    (recordEligibilityExecute .eligible ["  ", ""]).1.reasons =
      ["No reasons provided."] :=
  ⟨by decide,
   (record_eligibility_reasons .eligible ["  ", ""] (by decide)).2.2.2.1⟩

lemma buildStudySections_of_match (question : String)
    (h : studySections.any (sectionMatches (jsToLower question)) = true) :
    buildStudySections question =
      studySections.filter (sectionMatches (jsToLower question)) := by
  obtain ⟨sec, hmem, hsec⟩ := List.any_eq_true.mp h
  have hf : sec ∈ studySections.filter (sectionMatches (jsToLower question)) :=
    List.mem_filter.mpr ⟨hmem, hsec⟩
  have hpos : 0 < (studySections.filter (sectionMatches (jsToLower question))).length :=
    List.length_pos.mpr (List.ne_nil_of_mem hf)
  simp only [buildStudySections]
  rw [if_pos hpos]

lemma buildStudySections_of_no_match (question : String)
    (h : studySections.any (sectionMatches (jsToLower question)) = false) :
    buildStudySections question = [overviewSection, statusSection] := by
  have hnil : studySections.filter (sectionMatches (jsToLower question)) = [] := by
    rw [List.filter_eq_nil_iff]
    intro sec hmem hsec
    have := List.any_eq_true.mpr ⟨sec, hmem, hsec⟩
    rw [h] at this
    cases this
  simp only [buildStudySections]
  rw [hnil]
  decide

/-- Claim C8: `lookup_info` section matching is case-insensitive substring
matching of each section's keywords against the question; when at least
one keyword matches, exactly the matched sections are returned, otherwise
exactly the overview and status sections, so the result is never empty;
the exclusion-criteria question matches the eligibility section and
"asdf" falls back to the default pair. -/
theorem lookup_info_section_matching (question : String) :
    buildStudySections question =
      (if studySections.any (sectionMatches (jsToLower question))
       then studySections.filter (sectionMatches (jsToLower question))
       else [overviewSection, statusSection]) ∧
    buildStudySections question ≠ [] ∧
    ((buildStudySections "What are the exclusion criteria?").map
        StudySection.name).contains "eligibility" = true ∧
    buildStudySections "asdf" = [overviewSection, statusSection] := by
  refine ⟨?_, ?_, ?_, ?_⟩
  · by_cases h : studySections.any (sectionMatches (jsToLower question)) = true
    · rw [buildStudySections_of_match question h, if_pos h]
    · have hb := Bool.eq_false_iff.mpr h
      rw [buildStudySections_of_no_match question hb, hb]
      simp
  · by_cases h : studySections.any (sectionMatches (jsToLower question)) = true
    · rw [buildStudySections_of_match question h]
      obtain ⟨sec, hmem, hsec⟩ := List.any_eq_true.mp h
      exact List.ne_nil_of_mem (List.mem_filter.mpr ⟨hmem, hsec⟩)
    · rw [buildStudySections_of_no_match question (Bool.eq_false_iff.mpr h)]
      decide
  · rw [buildStudySections_of_match _ (by decide)]
    decide
  · rw [buildStudySections_of_no_match _ (by decide)]

/-- Claim C7: the moderation endpoint answers 500
`missing_openai_api_key` when the server secret is absent; with the
secret present, an unparseable body yields 400 `invalid_json`; a parsed
body whose text is empty after trimming yields 400 `missing_text`; and
whenever the classifier is reached, the forwarded input is the first 8000
characters of the request text. -/
theorem moderation_route_error_cases (apiKey : String)
    (body : Option ModerationRequestBody) (parsedBody : ModerationRequestBody)
    (classifier : ClassifierOutcome) :
    moderationRoutePost none body classifier =
      { status := 500, errorField := some "missing_openai_api_key",
        phaseField := none, resultField := none, detailsField := none,
        forwardedInput := none } ∧
    moderationRoutePost (some apiKey) none classifier =
      { status := 400, errorField := some "invalid_json", phaseField := none,
        resultField := none, detailsField := none, forwardedInput := none } ∧
    ((jsTrim (routeText parsedBody)).isEmpty = true →
      moderationRoutePost (some apiKey) (some parsedBody) classifier =
        { status := 400, errorField := some "missing_text", phaseField := none,
          resultField := none, detailsField := none, forwardedInput := none }) ∧
    ((moderationRoutePost (some apiKey) (some parsedBody) classifier).forwardedInput
        ≠ none →
      (moderationRoutePost (some apiKey) (some parsedBody) classifier).forwardedInput
        = some (jsSlice0 (routeText parsedBody) 8000)) := by
  refine ⟨rfl, rfl, ?_, ?_⟩
  · intro h
    simp [moderationRoutePost, h]
  · intro h
    by_cases htrim : (jsTrim (routeText parsedBody)).isEmpty = true
    · exact absurd (by simp [moderationRoutePost, htrim]) h
    · have hf := Bool.eq_false_iff.mpr htrim
      cases classifier <;> simp [moderationRoutePost, hf]

/-- A parsed body whose text is whitespace-only. -/
def blankBodyExample : ModerationRequestBody :=
  { text := .strVal "   ", phase := .strVal "user_input" }

/-- A parsed body with non-empty text and a missing phase field. -/
def helloBodyExample : ModerationRequestBody :=
  { text := .strVal "hello there", phase := .missing }

/-- Witness for C7: a whitespace-only text is rejected with
`missing_text`, and a successful classifier call receives the request
text. -/
theorem moderation_route_error_cases_witness :
    moderationRoutePost (some "key") (some blankBodyExample) .unreachable =
      { status := 400, errorField := some "missing_text", phaseField := none,
        resultField := none, detailsField := none, forwardedInput := none } ∧
    (moderationRoutePost (some "key") (some helloBodyExample)
        (.respOk "data")).forwardedInput =
      some (jsSlice0 (routeText helloBodyExample) 8000) :=
  ⟨(moderation_route_error_cases "key" none blankBodyExample .unreachable).2.2.1
     (by decide),
   (moderation_route_error_cases "key" none helloBodyExample
     (.respOk "data")).2.2.2 (by decide)⟩

/-- Claim C10: a valid-JSON body with non-empty text whose phase is
missing or not a string is not rejected: the route substitutes the phase
string "unknown" and, on classifier success, answers 200 with that phase
and the classifier result. -/
theorem moderation_route_phase_unknown (apiKey : String)
    (parsedBody : ModerationRequestBody) (data : String)
    (hphase : parsedBody.phase = .missing ∨ parsedBody.phase = .nonString)
    (htext : (jsTrim (routeText parsedBody)).isEmpty = false) :
    moderationRoutePost (some apiKey) (some parsedBody) (.respOk data) =
      { status := 200, errorField := none, phaseField := some "unknown",
        resultField := some data, detailsField := none,
        forwardedInput := some (jsSlice0 (routeText parsedBody) 8000) } := by
  have hph : routePhase parsedBody = "unknown" := by
    rcases hphase with h | h <;> simp [routePhase, h]
  simp [moderationRoutePost, htext, hph]

/-- Witness for C10 at a body with text "hello there" and no phase
field. -/
theorem moderation_route_phase_unknown_witness :
    moderationRoutePost (some "key") (some helloBodyExample) (.respOk "data") =
      { status := 200, errorField := none, phaseField := some "unknown",
        resultField := some "data", detailsField := none,
        forwardedInput := some (jsSlice0 (routeText helloBodyExample) 8000) } :=
  moderation_route_phase_unknown "key" helloBodyExample "data" (Or.inl rfl)
    (by decide)

/-- Counterexample to claim C1 as stated: for a connected session and a
validated high-severity update whose `risk_notes` is
`" escalate to clinician "`, the surfaced error message is the trimmed
string `"escalate to clinician"`, not the update's `risk_notes`. -/
theorem guardrail_violation_message_is_trimmed :
    connectedExample.status = .connected ∧
    guardrailSafeParse trimRawExample = some trimPayloadExample ∧
    trimPayloadExample.risk_notes = some " escalate to clinician " ∧
    classifyHighRisk trimPayloadExample = true ∧
    (applyGuardrailTool connectedExample trimRawExample).1.errorMessage ≠
      some " escalate to clinician " ∧
    (applyGuardrailTool connectedExample trimRawExample).1.errorMessage =
      some "escalate to clinician" := by
  decide

/-- Claim C1 (amended: the message is the trimmed `risk_notes`): for every
connected session, a successfully validated guardrail update with a
high-severity violation acknowledges the call, drives the status to
`error`, and the final state is exactly the torn-down session (media
stream and session references cleared) with the violating payload
re-installed and the error surfaced — teardown happens before the error
is surfaced; the message is the update's `risk_notes` trimmed of
surrounding whitespace when present, else `"Guardrail triggered: "`
followed by the joined violation tags. -/
theorem guardrail_violation_teardown_and_message (s : SupervisorState)
    (raw : RawGuardrailPayload) (payload : GuardrailStateUpdate)
    (hconn : s.status = .connected)
    (hparse : guardrailSafeParse raw = some payload)
    (hhigh : classifyHighRisk payload = true) :
    (applyGuardrailTool s raw).1 =
      { resetSession s with
          guardrailState := some payload,
          status := .error,
          errorMessage := some (match payload.risk_notes with
            | some notes => jsTrim notes
            | none => "Guardrail triggered: " ++
                String.intercalate ", " (payload.violations.map Violation.tag)) } ∧
    (applyGuardrailTool s raw).1.status = .error ∧
    (applyGuardrailTool s raw).1.mediaStreamRef = false ∧
    (applyGuardrailTool s raw).1.sessionRef = false ∧
    (applyGuardrailTool s raw).2 = { acknowledged := true, error := none } := by
  have hne : payload.violations.isEmpty = false := by
    obtain ⟨v, hv, _⟩ := List.any_eq_true.mp hhigh
    cases hvl : payload.violations with
    | nil => rw [hvl] at hv; exact absurd hv (List.not_mem_nil v)
    | cons a l => rfl
  have hmain : (applyGuardrailTool s raw).1 =
      { resetSession s with
          guardrailState := some payload,
          status := .error,
          errorMessage := some (match payload.risk_notes with
            | some notes => jsTrim notes
            | none => "Guardrail triggered: " ++
                String.intercalate ", " (payload.violations.map Violation.tag)) } := by
    simp only [applyGuardrailTool, guardrailExecute, hparse, guardrailExecuteBody,
               hhigh, if_true, List.foldl_cons, List.foldl_nil,
               handleGuardrailViolation, hne, Bool.false_eq_true, if_false,
               resetSession, cleanupAudio]
  refine ⟨hmain, ?_, ?_, ?_, ?_⟩
  · rw [hmain]
  · rw [hmain]; simp [resetSession, cleanupAudio]
  · rw [hmain]; simp [resetSession, cleanupAudio]
  · simp only [applyGuardrailTool, guardrailExecute, hparse, guardrailExecuteBody]

/-- Witness for C1 at a connected session and a validated
EMERGENCY_SIGNAL update without risk notes. -/
theorem guardrail_violation_teardown_and_message_witness :
    connectedExample.status = .connected ∧
    (applyGuardrailTool connectedExample highRawExample).1.status = .error ∧
    (applyGuardrailTool connectedExample highRawExample).1.mediaStreamRef = false ∧
    (applyGuardrailTool connectedExample highRawExample).1.errorMessage =
      some "Guardrail triggered: EMERGENCY_SIGNAL" := by
  have h := guardrail_violation_teardown_and_message connectedExample
    highRawExample highPayloadExample rfl (by decide) (by decide)
  refine ⟨rfl, h.2.1, h.2.2.1, ?_⟩
  rw [h.1]
  decide

/-- Claim C9: after a high-severity guardrail violation tears the session
down, the tracked guardrail state equals the violating payload while the
conversation history, eligibility summary and moderation log are all
cleared. -/
theorem guardrail_violation_frame (s : SupervisorState)
    (raw : RawGuardrailPayload) (payload : GuardrailStateUpdate)
    (hconn : s.status = .connected)
    (hparse : guardrailSafeParse raw = some payload)
    (hhigh : classifyHighRisk payload = true) :
    (applyGuardrailTool s raw).1.guardrailState = some payload ∧
    (applyGuardrailTool s raw).1.history = [] ∧
    (applyGuardrailTool s raw).1.eligibilitySummary = none ∧
    (applyGuardrailTool s raw).1.moderationLog = [] := by
  simp [applyGuardrailTool, guardrailExecute, hparse, guardrailExecuteBody,
        hhigh, handleGuardrailViolation, resetSession, cleanupAudio]

/-- Witness for C9 at a connected session that had accumulated history, an
eligibility summary and a moderation record. -/
theorem guardrail_violation_frame_witness :
    connectedExample.history ≠ [] ∧
    connectedExample.eligibilitySummary ≠ none ∧
    connectedExample.moderationLog ≠ [] ∧
    (applyGuardrailTool connectedExample highRawExample).1.guardrailState =
      some highPayloadExample ∧
    (applyGuardrailTool connectedExample highRawExample).1.history = [] ∧
    (applyGuardrailTool connectedExample highRawExample).1.eligibilitySummary
      = none ∧
    (applyGuardrailTool connectedExample highRawExample).1.moderationLog = [] := by
  have h := guardrail_violation_frame connectedExample highRawExample
    highPayloadExample rfl (by decide) (by decide)
  exact ⟨by decide, by decide, by decide, h.1, h.2.1, h.2.2.1, h.2.2.2⟩

end OaiRealtime
